import Mathlib

/-
Verification development for the codex-switcher core (src-tauri):
credential model and account switcher (src/auth/switcher.rs) and the
usage fetcher (src/api/usage.rs).

Shallow embedding conventions:
  * anyhow::Result is embedded as Except String; error messages keep the
    text of the innermost context attached at the failure site.
  * File and network I/O are made explicit: the network is a parameter
    of type Net mapping the issued request to its outcome; file reads
    are elided and functions operate on the file content or the parsed
    document directly.
  * serde_json, the base64 crate (URL_SAFE_NO_PAD engine) and UTF-8
    decoding are embedded as executable Lean functions below; JSON
    numbers are kept as their decimal lexemes, since this core never
    computes with them (they are passed through unmodified).
  * Bytes are Nat values below 256; machine integer arithmetic in the
    source (the minutes conversion on i64) stays in the nonnegative
    range, so it is modelled on Nat.
-/

/-! ### Delimiter characters used by the JSON parser, named by code point -/

def quoteChar : Char := Char.ofNat 34

def backslashChar : Char := Char.ofNat 92

def slashChar : Char := Char.ofNat 47

def leftBraceChar : Char := Char.ofNat 123

def rightBraceChar : Char := Char.ofNat 125

/-! ### base64 URL_SAFE_NO_PAD decoding (base64 crate,
`base64::engine::general_purpose::URL_SAFE_NO_PAD`): alphabet A-Z a-z 0-9
minus underscore, no padding accepted, length mod 4 = 1 rejected, nonzero
trailing bits rejected (the default strict decode). -/

def b64CharVal (c : Char) : Option Nat :=
  if 'A' ≤ c ∧ c ≤ 'Z' then some (c.toNat - 65)
  else if 'a' ≤ c ∧ c ≤ 'z' then some (c.toNat - 97 + 26)
  else if '0' ≤ c ∧ c ≤ '9' then some (c.toNat - 48 + 52)
  else if c = '-' then some 62
  else if c = '_' then some 63
  else none

def b64Chunks : List Nat → Option (List Nat)
  | [] => some []
  | [_] => none
  | [a, b] => if b % 16 = 0 then some [a * 4 + b / 16] else none
  | [a, b, c] =>
      if c % 4 = 0 then some [a * 4 + b / 16, (b % 16) * 16 + c / 4] else none
  | a :: b :: c :: d :: rest =>
      (b64Chunks rest).map
        (fun tl => (a * 4 + b / 16) :: ((b % 16) * 16 + c / 4) :: ((c % 4) * 64 + d) :: tl)

/-- Decode a base64 URL-safe no-padding segment (given as its characters)
into bytes; none on any invalid character, invalid length, or nonzero
trailing bits. -/
def base64UrlNoPadDecode (cs : List Char) : Option (List Nat) :=
  match cs.mapM b64CharVal with
  | none => none
  | some vals => b64Chunks vals

/-! ### Strict UTF-8 decoding (serde_json::from_slice requires the input
bytes to be valid UTF-8): rejects continuation bytes in lead position,
overlong encodings, surrogate code points and values above U+10FFFF. -/

def utf8Decode : List Nat → Option (List Char)
  | [] => some []
  | b :: bs =>
    if b < 0x80 then (utf8Decode bs).map (fun cs => Char.ofNat b :: cs)
    else if b < 0xC2 then none
    else if b < 0xE0 then
      match bs with
      | c1 :: bs1 =>
        if 0x80 ≤ c1 ∧ c1 < 0xC0 then
          (utf8Decode bs1).map (fun cs => Char.ofNat ((b - 0xC0) * 0x40 + (c1 - 0x80)) :: cs)
        else none
      | [] => none
    else if b < 0xF0 then
      match bs with
      | c1 :: c2 :: bs2 =>
        if 0x80 ≤ c1 ∧ c1 < 0xC0 ∧ 0x80 ≤ c2 ∧ c2 < 0xC0 then
          let cp := (b - 0xE0) * 0x1000 + (c1 - 0x80) * 0x40 + (c2 - 0x80)
          if 0x800 ≤ cp ∧ ¬ (0xD800 ≤ cp ∧ cp < 0xE000) then
            (utf8Decode bs2).map (fun cs => Char.ofNat cp :: cs)
          else none
        else none
      | _ => none
    else if b < 0xF5 then
      match bs with
      | c1 :: c2 :: c3 :: bs3 =>
        if 0x80 ≤ c1 ∧ c1 < 0xC0 ∧ 0x80 ≤ c2 ∧ c2 < 0xC0 ∧ 0x80 ≤ c3 ∧ c3 < 0xC0 then
          let cp := (b - 0xF0) * 0x40000 + (c1 - 0x80) * 0x1000 +
            (c2 - 0x80) * 0x40 + (c3 - 0x80)
          if 0x10000 ≤ cp ∧ cp ≤ 0x10FFFF then
            (utf8Decode bs3).map (fun cs => Char.ofNat cp :: cs)
          else none
        else none
      | _ => none
    else none

/-! ### JSON values and a recursive-descent parser following the grammar
serde_json accepts: the RFC 8259 value grammar, strict string escapes
with surrogate-pair handling for backslash-u, numbers as
minus? int frac? exp?, whitespace = space, tab, LF, CR. Object member
lookup takes the last occurrence of a duplicated key, matching the map
insertion serde_json performs while parsing. -/

inductive JValue where
  | jnull : JValue
  | jbool (b : Bool) : JValue
  | jnum (lexeme : String) : JValue
  | jstr (s : String) : JValue
  | jarr (elems : List JValue) : JValue
  | jobj (members : List (String × JValue)) : JValue

def jsonWs (c : Char) : Bool :=
  c = ' ' || c = '\t' || c = '\n' || c = '\r'

def skipWs (cs : List Char) : List Char := cs.dropWhile jsonWs

def hexVal (c : Char) : Option Nat :=
  if '0' ≤ c ∧ c ≤ '9' then some (c.toNat - 48)
  else if 'a' ≤ c ∧ c ≤ 'f' then some (c.toNat - 97 + 10)
  else if 'A' ≤ c ∧ c ≤ 'F' then some (c.toNat - 65 + 10)
  else none

def hex4 (a b c d : Char) : Option Nat :=
  match hexVal a, hexVal b, hexVal c, hexVal d with
  | some x, some y, some z, some w => some (x * 4096 + y * 256 + z * 16 + w)
  | _, _, _, _ => none

/-- Parse the body of a JSON string literal (the opening quote already
consumed); returns the decoded string and the remaining input. -/
def parseStringAux : List Char → List Char → Option (String × List Char)
  | _, [] => none
  | acc, c :: rest =>
    if c = quoteChar then some (String.mk acc.reverse, rest)
    else if c = backslashChar then
      match rest with
      | [] => none
      | e :: r2 =>
        if e = quoteChar then parseStringAux (quoteChar :: acc) r2
        else if e = backslashChar then parseStringAux (backslashChar :: acc) r2
        else if e = slashChar then parseStringAux (slashChar :: acc) r2
        else if e = 'b' then parseStringAux (Char.ofNat 8 :: acc) r2
        else if e = 'f' then parseStringAux (Char.ofNat 12 :: acc) r2
        else if e = 'n' then parseStringAux ('\n' :: acc) r2
        else if e = 'r' then parseStringAux ('\r' :: acc) r2
        else if e = 't' then parseStringAux ('\t' :: acc) r2
        else if e = 'u' then
          match r2 with
          | h1 :: h2 :: h3 :: h4 :: r3 =>
            match hex4 h1 h2 h3 h4 with
            | none => none
            | some cp =>
              if cp < 0xD800 ∨ 0xE000 ≤ cp then
                parseStringAux (Char.ofNat cp :: acc) r3
              else if cp < 0xDC00 then
                match r3 with
                | e2 :: u2 :: g1 :: g2 :: g3 :: g4 :: r4 =>
                  if e2 = backslashChar ∧ u2 = 'u' then
                    match hex4 g1 g2 g3 g4 with
                    | some lo =>
                      if 0xDC00 ≤ lo ∧ lo < 0xE000 then
                        parseStringAux
                          (Char.ofNat (0x10000 + (cp - 0xD800) * 0x400 + (lo - 0xDC00)) :: acc) r4
                      else none
                    | none => none
                  else none
                | _ => none
              else none
          | _ => none
        else none
    else if c.toNat < 0x20 then none
    else parseStringAux (c :: acc) rest

def isDigitChar (c : Char) : Bool := '0' ≤ c && c ≤ '9'

/-- Parse a JSON number starting at the head of the input, returning its
lexeme; follows minus? (0 | nonzero digits) frac? exp?. -/
def parseNumber (cs : List Char) : Option (String × List Char) :=
  let signAndRest : List Char × List Char :=
    match cs with
    | c :: rest => if c = '-' then (['-'], rest) else ([], cs)
    | [] => ([], [])
  let sign := signAndRest.1
  let afterSign := signAndRest.2
  match afterSign with
  | [] => none
  | c :: _ =>
    if ¬ (isDigitChar c = true) then none
    else
      let intAndRest : List Char × List Char :=
        if c = '0' then (['0'], afterSign.drop 1)
        else (afterSign.takeWhile isDigitChar, afterSign.dropWhile isDigitChar)
      let intPart := intAndRest.1
      let afterInt := intAndRest.2
      let fracAndRest : Option (List Char × List Char) :=
        match afterInt with
        | '.' :: r =>
          let ds := r.takeWhile isDigitChar
          if ds.isEmpty then none else some ('.' :: ds, r.dropWhile isDigitChar)
        | _ => some ([], afterInt)
      match fracAndRest with
      | none => none
      | some (fracPart, afterFrac) =>
        let expAndRest : Option (List Char × List Char) :=
          match afterFrac with
          | e :: r =>
            if e = 'e' ∨ e = 'E' then
              let signedR : List Char × List Char :=
                match r with
                | s :: r2 => if s = '+' ∨ s = '-' then ([s], r2) else ([], r)
                | [] => ([], [])
              let ds := signedR.2.takeWhile isDigitChar
              if ds.isEmpty then none
              else some (e :: (signedR.1 ++ ds), signedR.2.dropWhile isDigitChar)
            else some ([], afterFrac)
          | [] => some ([], [])
        match expAndRest with
        | none => none
        | some (expPart, afterExp) =>
          some (String.mk (sign ++ intPart ++ fracPart ++ expPart), afterExp)

mutual

def parseVal : Nat → List Char → Option (JValue × List Char)
  | 0, _ => none
  | Nat.succ fuel, cs =>
    match skipWs cs with
    | [] => none
    | c :: rest =>
      if c = quoteChar then
        (parseStringAux [] rest).map (fun p => (JValue.jstr p.1, p.2))
      else if c = '[' then
        match skipWs rest with
        | ']' :: r2 => some (JValue.jarr [], r2)
        | _ => (parseElems fuel rest).map (fun p => (JValue.jarr p.1, p.2))
      else if c = leftBraceChar then
        match skipWs rest with
        | r0 :: r2 =>
          if r0 = rightBraceChar then some (JValue.jobj [], r2)
          else (parseMembers fuel rest).map (fun p => (JValue.jobj p.1, p.2))
        | [] => none
      else if c = 't' then
        match rest with
        | 'r' :: 'u' :: 'e' :: r => some (JValue.jbool true, r)
        | _ => none
      else if c = 'f' then
        match rest with
        | 'a' :: 'l' :: 's' :: 'e' :: r => some (JValue.jbool false, r)
        | _ => none
      else if c = 'n' then
        match rest with
        | 'u' :: 'l' :: 'l' :: r => some (JValue.jnull, r)
        | _ => none
      else if c = '-' ∨ isDigitChar c = true then
        (parseNumber (c :: rest)).map (fun p => (JValue.jnum p.1, p.2))
      else none

def parseElems : Nat → List Char → Option (List JValue × List Char)
  | 0, _ => none
  | Nat.succ fuel, cs =>
    match parseVal fuel cs with
    | none => none
    | some (v, rest) =>
      match skipWs rest with
      | ',' :: r2 =>
        (parseElems fuel r2).map (fun p => (v :: p.1, p.2))
      | ']' :: r2 => some ([v], r2)
      | _ => none

def parseMembers : Nat → List Char → Option (List (String × JValue) × List Char)
  | 0, _ => none
  | Nat.succ fuel, cs =>
    match skipWs cs with
    | q :: rest =>
      if q = quoteChar then
        match parseStringAux [] rest with
        | none => none
        | some (key, r2) =>
          match skipWs r2 with
          | ':' :: r3 =>
            match parseVal fuel r3 with
            | none => none
            | some (v, r4) =>
              match skipWs r4 with
              | ',' :: r5 =>
                (parseMembers fuel r5).map (fun p => ((key, v) :: p.1, p.2))
              | rb :: r5 =>
                if rb = rightBraceChar then some ([(key, v)], r5) else none
              | [] => none
          | _ => none
      else none
    | [] => none

end

/-- Parse a complete JSON document from characters: one value surrounded
by optional whitespace, whole input consumed. The fuel bound mirrors the
bounded recursion serde_json performs and is ample for any input of this
length. -/
def jsonParseChars (cs : List Char) : Option JValue :=
  match parseVal (2 * cs.length + 8) cs with
  | some (v, rest) => if (skipWs rest).isEmpty then some v else none
  | none => none

/-- serde_json::from_slice: bytes must be valid UTF-8, then parsed. -/
def jsonParseBytes (bs : List Nat) : Option JValue :=
  (utf8Decode bs).bind jsonParseChars

/-- serde_json::from_str on a Lean string. -/
def jsonParseString (s : String) : Option JValue := jsonParseChars s.data

/-- serde_json Value::get(key): some value for an object containing the
key (last occurrence wins, as with map insertion), none otherwise. -/
def JValue.getKey (v : JValue) (k : String) : Option JValue :=
  match v with
  | JValue.jobj members => (members.reverse.find? (fun m => m.1 == k)).map (fun m => m.2)
  | _ => none

/-- serde_json Value::as_str. -/
def JValue.asStr (v : JValue) : Option String :=
  match v with
  | JValue.jstr s => some s
  | _ => none

/-- serde_json Value::as_bool analogue used for typed bool fields. -/
def JValue.asBool (v : JValue) : Option Bool :=
  match v with
  | JValue.jbool b => some b
  | _ => none

/-! ## Credential model (src/src-tauri/src/auth/switcher.rs and the data
model of the spec)

Timestamps (chrono DateTime values in the source) are opaque here: the
core only stores or passes them through, so they are modelled as
strings. -/

abbrev Timestamp := String

/-- Token triple of the ChatGPT auth mode (struct TokenData). -/
structure TokenData where
  id_token : String
  access_token : String
  refresh_token : String
  account_id : Option String
deriving DecidableEq

/-- Modelled from the spec: the tagged auth union of StoredAccount
(enum AuthData in the missing types.rs); exactly one of the two variants,
matching the data-model section of the spec and every match site in
switcher.rs and usage.rs. -/
inductive AuthData where
  | ApiKey (key : String) : AuthData
  | ChatGPT (id_token : String) (access_token : String) (refresh_token : String)
      (account_id : Option String) : AuthData
deriving DecidableEq

/-- Modelled from the spec: one managed identity (struct StoredAccount in
the missing types.rs): opaque id, user-facing name, optional display
email and plan label (prefilled by claim extraction on import), and the
auth union. -/
structure StoredAccount where
  id : String
  name : String
  email : Option String
  plan_type : Option String
  auth_data : AuthData
deriving DecidableEq

/-- The canonical on-disk credential document (struct AuthDotJson). -/
structure AuthDotJson where
  openai_api_key : Option String
  tokens : Option TokenData
  last_refresh : Option Timestamp
deriving DecidableEq

/-- Modelled from the spec: constructor StoredAccount::new_api_key of the
missing types.rs; the source generates a fresh opaque id, taken here as
the explicit argument fresh_id, and leaves the display fields unset. -/
def StoredAccount.new_api_key (fresh_id : String) (account_name : String)
    (api_key : String) : StoredAccount :=
  { id := fresh_id, name := account_name, email := none, plan_type := none,
    auth_data := AuthData.ApiKey api_key }

/-- Modelled from the spec: constructor StoredAccount::new_chatgpt of the
missing types.rs, following its call in import_from_auth_json: display
fields plus the token triple and optional upstream account id. -/
def StoredAccount.new_chatgpt (fresh_id : String) (account_name : String)
    (email : Option String) (plan_type : Option String)
    (id_token : String) (access_token : String) (refresh_token : String)
    (account_id : Option String) : StoredAccount :=
  { id := fresh_id, name := account_name, email := email, plan_type := plan_type,
    auth_data := AuthData.ChatGPT id_token access_token refresh_token account_id }

/-- create_auth_json (switcher.rs lines 56-79): build the AuthDotJson
document from the auth variant of a stored account. The source wraps the
result in Ok with no failure path; the clock (Utc::now) is the explicit
argument now. -/
def create_auth_json (now : Timestamp) (account : StoredAccount) : AuthDotJson :=
  match account.auth_data with
  | AuthData.ApiKey key =>
    { openai_api_key := some key, tokens := none, last_refresh := none }
  | AuthData.ChatGPT id_token access_token refresh_token account_id =>
    { openai_api_key := none,
      tokens := some
        { id_token := id_token, access_token := access_token,
          refresh_token := refresh_token, account_id := account_id },
      last_refresh := some now }

/-- Rust split by the char sep, as in id_token.split(sep): the empty
string yields one empty part, separators at the edges yield empty
parts. -/
def splitOnChar (sep : Char) : List Char → List (List Char)
  | [] => [[]]
  | c :: rest =>
    let r := splitOnChar sep rest
    if c = sep then [] :: r
    else
      match r with
      | h :: t => (c :: h) :: t
      | [] => [[c]]

/-- parse_id_token_claims (switcher.rs lines 111-139): best-effort JWT
payload decode. Splits on periods, requires exactly three parts, decodes
the middle part as URL-safe no-padding base64, parses the bytes as JSON,
and reads the top-level email field and the chatgpt_plan_type field
nested under the vendor-namespaced claims object; every failure yields
the pair (none, none). -/
def parse_id_token_claims (id_token : String) : Option String × Option String :=
  match splitOnChar '.' id_token.data with
  | [_, p1, _] =>
    match base64UrlNoPadDecode p1 with
    | none => (none, none)
    | some payload =>
      match jsonParseBytes payload with
      | none => (none, none)
      | some json =>
        let email := (json.getKey "email").bind JValue.asStr
        let plan_type :=
          ((json.getKey "https://api.openai.com/auth").bind
            (fun auth => auth.getKey "chatgpt_plan_type")).bind JValue.asStr
        (email, plan_type)
  | _ => (none, none)

/-- Branch of import_from_auth_json after the file has been read and
parsed (switcher.rs lines 90-107): prefer the API key, otherwise the
token triple (prefilling display fields by best-effort claim
extraction), otherwise fail. -/
def import_auth_core (fresh_id : String) (account_name : String)
    (auth : AuthDotJson) : Except String StoredAccount :=
  match auth.openai_api_key with
  | some api_key => Except.ok (StoredAccount.new_api_key fresh_id account_name api_key)
  | none =>
    match auth.tokens with
    | some tokens =>
      let ep := parse_id_token_claims tokens.id_token
      Except.ok (StoredAccount.new_chatgpt fresh_id account_name ep.1 ep.2
        tokens.id_token tokens.access_token tokens.refresh_token tokens.account_id)
    | none => Except.error "auth.json contains neither API key nor tokens"

/-- Modelled from the spec: serde deserialization of an optional string
field of AuthDotJson (types.rs is missing; the spec fixes the on-disk
contract as a JSON object with optional string keys). A missing key or
null yields none; a present key of any other non-string shape is a
parse failure. -/
def jOptStrField (v : JValue) (k : String) : Option (Option String) :=
  match v.getKey k with
  | none => some none
  | some JValue.jnull => some none
  | some (JValue.jstr s) => some (some s)
  | some _ => none

/-- Required string field of a JSON object. -/
def jReqStrField (v : JValue) (k : String) : Option String :=
  (v.getKey k).bind JValue.asStr

/-- Modelled from the spec: serde deserialization of the tokens object
(id_token, access_token, refresh_token strings, optional account_id). -/
def parseTokenData (v : JValue) : Option TokenData :=
  match v with
  | JValue.jobj _ =>
    match jReqStrField v "id_token", jReqStrField v "access_token",
        jReqStrField v "refresh_token", jOptStrField v "account_id" with
    | some idt, some at1, some rt1, some aid =>
      some { id_token := idt, access_token := at1, refresh_token := rt1, account_id := aid }
    | _, _, _, _ => none
  | _ => none

/-- Modelled from the spec: serde deserialization of AuthDotJson from
file content (the external contract of section 6: optional
openai_api_key string, optional tokens object, optional last_refresh
timestamp string). -/
def parseAuthDotJson (content : String) : Option AuthDotJson :=
  match jsonParseString content with
  | some v =>
    match v with
    | JValue.jobj _ =>
      match jOptStrField v "openai_api_key", jOptStrField v "last_refresh" with
      | some apiKey, some lastRefresh =>
        match v.getKey "tokens" with
        | none => some { openai_api_key := apiKey, tokens := none, last_refresh := lastRefresh }
        | some JValue.jnull =>
          some { openai_api_key := apiKey, tokens := none, last_refresh := lastRefresh }
        | some tv =>
          match parseTokenData tv with
          | some td =>
            some { openai_api_key := apiKey, tokens := some td, last_refresh := lastRefresh }
          | none => none
      | _, _ => none
    | _ => none
  | none => none

/-- import_from_auth_json (switcher.rs lines 82-108) with the file read
elided: content is the text of the file at the given path. -/
def import_from_auth_json (fresh_id : String) (content : String)
    (account_name : String) : Except String StoredAccount :=
  match parseAuthDotJson content with
  | none => Except.error "Failed to parse auth.json"
  | some auth => import_auth_core fresh_id account_name auth

/-! ## Usage fetcher (src/src-tauri/src/api/usage.rs)

The remote payload types come from the missing types.rs; their shape is
modelled from the external-interface section of the spec. Numeric
payload fields (used_percent, balance) are kept as their JSON number
lexemes, and reset_at timestamps as their JSON strings, since this core
passes them through unmodified. -/

/-- Modelled from the spec: one rate-limit window of the remote payload
(used_percent number, optional limit_window_seconds nonnegative integer,
optional reset_at timestamp). -/
structure RateLimitWindow where
  used_percent : String
  limit_window_seconds : Option Nat
  reset_at : Option Timestamp
deriving DecidableEq

/-- Modelled from the spec: the optional rate_limit block with up to two
named windows. -/
structure RateLimitDetails where
  primary_window : Option RateLimitWindow
  secondary_window : Option RateLimitWindow
deriving DecidableEq

/-- Modelled from the spec: the optional credits block. -/
structure CreditStatusDetails where
  has_credits : Bool
  unlimited : Bool
  balance : Option String
deriving DecidableEq

/-- Modelled from the spec: the remote usage payload: plan_type string,
optional rate_limit block, optional credits block. -/
structure RateLimitStatusPayload where
  plan_type : String
  rate_limit : Option RateLimitDetails
  credits : Option CreditStatusDetails
deriving DecidableEq

/-- Modelled from the spec: the normalized per-account usage snapshot
(struct UsageInfo of the missing types.rs), with the fields usage.rs
populates. -/
structure UsageInfo where
  account_id : String
  plan_type : Option String
  primary_used_percent : Option String
  primary_window_minutes : Option Nat
  primary_resets_at : Option Timestamp
  secondary_used_percent : Option String
  secondary_window_minutes : Option Nat
  secondary_resets_at : Option Timestamp
  has_credits : Option Bool
  unlimited_credits : Option Bool
  credits_balance : Option String
  error : Option String
deriving DecidableEq

/-- Modelled from the spec: the constructor UsageInfo::error of the
missing types.rs (a record with only account_id and error set, all
usage fields absent). -/
def UsageInfo.mkError (account_id : String) (msg : String) : UsageInfo :=
  { account_id := account_id, plan_type := none,
    primary_used_percent := none, primary_window_minutes := none,
    primary_resets_at := none, secondary_used_percent := none,
    secondary_window_minutes := none, secondary_resets_at := none,
    has_credits := none, unlimited_credits := none, credits_balance := none,
    error := some msg }

/-- extract_rate_limits (usage.rs lines 149-156). -/
def extract_rate_limits (rate_limit : Option RateLimitDetails) :
    Option RateLimitWindow × Option RateLimitWindow :=
  match rate_limit with
  | some details => (details.primary_window, details.secondary_window)
  | none => (none, none)

/-- extract_credits (usage.rs lines 158-160). -/
def extract_credits (credits : Option CreditStatusDetails) : Option CreditStatusDetails :=
  credits

/-- convert_payload_to_usage_info (usage.rs lines 123-147): normalize the
remote payload; each present window contributes its used percent, its
reset timestamp, and its length converted from seconds to minutes by
the integer expression (s + 59) / 60. -/
def convert_payload_to_usage_info (account_id : String)
    (payload : RateLimitStatusPayload) : UsageInfo :=
  let pr := extract_rate_limits payload.rate_limit
  let primary := pr.1
  let secondary := pr.2
  let credits := extract_credits payload.credits
  { account_id := account_id,
    plan_type := some payload.plan_type,
    primary_used_percent := primary.map (fun w => w.used_percent),
    primary_window_minutes :=
      (primary.bind (fun w => w.limit_window_seconds)).map (fun s => (s + 59) / 60),
    primary_resets_at := primary.bind (fun w => w.reset_at),
    secondary_used_percent := secondary.map (fun w => w.used_percent),
    secondary_window_minutes :=
      (secondary.bind (fun w => w.limit_window_seconds)).map (fun s => (s + 59) / 60),
    secondary_resets_at := secondary.bind (fun w => w.reset_at),
    has_credits := credits.map (fun c => c.has_credits),
    unlimited_credits := credits.map (fun c => c.unlimited),
    credits_balance := credits.bind (fun c => c.balance),
    error := none }

/-- Optional JSON number field kept as its lexeme; missing or null is
none, a present non-number is a parse failure. -/
def jOptNumField (v : JValue) (k : String) : Option (Option String) :=
  match v.getKey k with
  | none => some none
  | some JValue.jnull => some none
  | some (JValue.jnum lex) => some (some lex)
  | some _ => none

/-- Optional nonnegative integer field: a JSON number whose lexeme is
plain digits; missing or null is none. -/
def jOptNatField (v : JValue) (k : String) : Option (Option Nat) :=
  match v.getKey k with
  | none => some none
  | some JValue.jnull => some none
  | some (JValue.jnum lex) =>
    if lex.data ≠ [] ∧ lex.data.all isDigitChar then
      some (some (lex.data.foldl (fun n c => n * 10 + (c.toNat - 48)) 0))
    else none
  | some _ => none

/-- Modelled from the spec: serde deserialization of one rate-limit
window. -/
def parseRateLimitWindow (v : JValue) : Option RateLimitWindow :=
  match v with
  | JValue.jobj _ =>
    match v.getKey "used_percent", jOptNatField v "limit_window_seconds",
        jOptStrField v "reset_at" with
    | some (JValue.jnum up), some lws, some ra =>
      some { used_percent := up, limit_window_seconds := lws, reset_at := ra }
    | _, _, _ => none
  | _ => none

/-- Optional sub-object field parsed by the given element parser. -/
def jOptObjField (v : JValue) (k : String) (p : JValue → Option α) :
    Option (Option α) :=
  match v.getKey k with
  | none => some none
  | some JValue.jnull => some none
  | some sub =>
    match p sub with
    | some r => some (some r)
    | none => none

/-- Modelled from the spec: serde deserialization of the rate_limit
block. -/
def parseRateLimitDetails (v : JValue) : Option RateLimitDetails :=
  match v with
  | JValue.jobj _ =>
    match jOptObjField v "primary_window" parseRateLimitWindow,
        jOptObjField v "secondary_window" parseRateLimitWindow with
    | some pw, some sw => some { primary_window := pw, secondary_window := sw }
    | _, _ => none
  | _ => none

/-- Modelled from the spec: serde deserialization of the credits block
(has_credits bool, unlimited bool, optional balance number). -/
def parseCreditStatusDetails (v : JValue) : Option CreditStatusDetails :=
  match v with
  | JValue.jobj _ =>
    match (v.getKey "has_credits").bind JValue.asBool,
        (v.getKey "unlimited").bind JValue.asBool, jOptNumField v "balance" with
    | some hc, some ul, some bal =>
      some { has_credits := hc, unlimited := ul, balance := bal }
    | _, _, _ => none
  | _ => none

/-- Modelled from the spec: serde deserialization of the remote usage
payload from the response body text. -/
def parseRateLimitStatusPayload (body : String) : Option RateLimitStatusPayload :=
  match jsonParseString body with
  | some v =>
    match v with
    | JValue.jobj _ =>
      match jReqStrField v "plan_type",
          jOptObjField v "rate_limit" parseRateLimitDetails,
          jOptObjField v "credits" parseCreditStatusDetails with
      | some pt, some rl, some cr =>
        some { plan_type := pt, rate_limit := rl, credits := cr }
      | _, _, _ => none
    | _ => none
  | none => none

/-! ### The network model: a request carries the URL and the header list
actually attached; the environment answers with a send failure or a
response (status code plus the outcome of reading the body text). -/

structure UsageRequest where
  url : String
  headers : List (String × String)
deriving DecidableEq

inductive BodyResult where
  | ok (text : String) : BodyResult
  | readError : BodyResult
deriving DecidableEq

inductive NetOutcome where
  | sendFailure : NetOutcome
  | response (status : Nat) (body : BodyResult) : NetOutcome
deriving DecidableEq

abbrev Net := UsageRequest → NetOutcome

def CHATGPT_BACKEND_API : String := "https://chatgpt.com/backend-api"

/-- Validity of one character as an http HeaderValue byte: visible or
space characters (byte at least 32, not DEL) and horizontal tab; any
character at code point 128 and above encodes to UTF-8 bytes that are
all valid, so validity is per character. -/
def isValidHeaderValueChar (c : Char) : Bool :=
  (32 ≤ c.toNat && c.toNat ≠ 127) || c.toNat = 9

/-- HeaderValue::from_str succeeds exactly when every character is
valid. -/
def isValidHeaderValue (s : String) : Bool :=
  s.data.all isValidHeaderValueChar

/-- Header construction of get_usage_with_chatgpt_token (usage.rs lines
60-74): User-Agent and Authorization always; the chatgpt-account-id
header only when the account id is a valid header value, silently
skipped otherwise; an invalid bearer string is a failure with context
Invalid access token. -/
def buildUsageHeaders (access_token : String) (chatgpt_account_id : Option String) :
    Except String (List (String × String)) :=
  if isValidHeaderValue ("Bearer " ++ access_token) then
    let base := [("user-agent", "codex-cli/1.0.0"),
      ("authorization", "Bearer " ++ access_token)]
    Except.ok
      (match chatgpt_account_id with
       | some acc_id =>
         if isValidHeaderValue acc_id then base ++ [("chatgpt-account-id", acc_id)]
         else base
       | none => base)
  else Except.error "Invalid access token"

/-- The headers sent when the access token is a valid header value. -/
def sentHeaders (access_token : String) (chatgpt_account_id : Option String) :
    List (String × String) :=
  let base := [("user-agent", "codex-cli/1.0.0"),
    ("authorization", "Bearer " ++ access_token)]
  match chatgpt_account_id with
  | some acc_id =>
    if isValidHeaderValue acc_id then base ++ [("chatgpt-account-id", acc_id)]
    else base
  | none => base

/-- The request issued to the wham usage endpoint. -/
def whamRequest (access_token : String) (chatgpt_account_id : Option String) :
    UsageRequest :=
  { url := CHATGPT_BACKEND_API ++ "/wham/usage",
    headers := sentHeaders access_token chatgpt_account_id }

/-- reqwest StatusCode::is_success. -/
def statusIsSuccess (status : Nat) : Bool :=
  200 ≤ status && status < 300

/-- get_usage_with_chatgpt_token (usage.rs lines 52-120): build headers,
send, map a non-success status to an error record, otherwise read and
parse the body and normalize it; send, body-read and parse failures are
returned as errors of the call itself (the question-mark operator in
the source). The account_name argument is only printed by the source
and is unused here. -/
def get_usage_with_chatgpt_token (net : Net) (account_id : String)
    (account_name : String) (access_token : String)
    (chatgpt_account_id : Option String) : Except String UsageInfo :=
  match buildUsageHeaders access_token chatgpt_account_id with
  | Except.error e => Except.error e
  | Except.ok _ =>
    match net (whamRequest access_token chatgpt_account_id) with
    | NetOutcome.sendFailure => Except.error "Failed to send usage request"
    | NetOutcome.response status body =>
      if statusIsSuccess status then
        match body with
        | BodyResult.readError => Except.error "Failed to read response body"
        | BodyResult.ok body_text =>
          match parseRateLimitStatusPayload body_text with
          | none => Except.error "Failed to parse usage response"
          | some payload => Except.ok (convert_payload_to_usage_info account_id payload)
      else
        Except.ok (UsageInfo.mkError account_id ("API error: " ++ toString status))

/-- get_account_usage (usage.rs lines 14-49): API-key accounts
short-circuit with a fixed record and no network call; ChatGPT accounts
delegate to the token fetch. -/
def get_account_usage (net : Net) (account : StoredAccount) : Except String UsageInfo :=
  match account.auth_data with
  | AuthData.ApiKey _ =>
    Except.ok
      { account_id := account.id, plan_type := some "api_key",
        primary_used_percent := none, primary_window_minutes := none,
        primary_resets_at := none, secondary_used_percent := none,
        secondary_window_minutes := none, secondary_resets_at := none,
        has_credits := none, unlimited_credits := none, credits_balance := none,
        error := some "Usage info not available for API key accounts" }
  | AuthData.ChatGPT _ access_token _ account_id =>
    get_usage_with_chatgpt_token net account.id account.name access_token account_id

/-- refresh_all_usage (usage.rs lines 163-182): one task per account,
joined in input order (futures::future::join_all preserves the order of
the input sequence); a failing fetch is converted into an error record
for that account. -/
def refresh_all_usage (net : Net) (accounts : List StoredAccount) : List UsageInfo :=
  accounts.map (fun account =>
    match get_account_usage net account with
    | Except.ok info => info
    | Except.error e => UsageInfo.mkError account.id e)

/-! ## Claims about the credential model -/

/-- Claim C1: for every StoredAccount, in either auth mode, converting
its auth variant to a CredentialDocument (create_auth_json) and
importing that document back (the conversion branch of
import_from_auth_json) succeeds and yields an account whose auth
variant has the same variant tag and the same field values: the key for
ApiKey; id_token, access_token, refresh_token and optional account_id
for ChatGPT. -/
theorem c1_roundtrip_auth_variant (now : Timestamp) (fresh_id account_name : String)
    (a : StoredAccount) :
    (import_auth_core fresh_id account_name (create_auth_json now a)).map
      StoredAccount.auth_data = Except.ok a.auth_data := by
  rcases a with ⟨i, n, e, p, ad⟩
  cases ad <;>
    simp [create_auth_json, import_auth_core, StoredAccount.new_api_key,
      StoredAccount.new_chatgpt, Except.map]

/-- Claim C5: every document produced by create_auth_json (the document
switch_to_account serializes and writes) has exactly one of
openai_api_key and tokens present; an ApiKey account yields the api key
set with tokens and last_refresh absent, and a ChatGPT account yields
the token triple set with openai_api_key absent and last_refresh set to
the current clock value. -/
theorem c5_document_exactly_one_credential (now : Timestamp) (a : StoredAccount) :
    ((create_auth_json now a).openai_api_key.isSome
        = !(create_auth_json now a).tokens.isSome) ∧
    (match a.auth_data with
     | AuthData.ApiKey key =>
        create_auth_json now a =
          { openai_api_key := some key, tokens := none, last_refresh := none }
     | AuthData.ChatGPT idt act rft aid =>
        create_auth_json now a =
          { openai_api_key := none,
            tokens := some ⟨idt, act, rft, aid⟩,
            last_refresh := some now }) := by
  rcases a with ⟨i, n, e, p, ad⟩
  cases ad <;> simp [create_auth_json]

/-- Claim C6: importing a parsed document with neither openai_api_key
nor tokens fails with the format error naming the missing credential
types; importing a document with both present prefers the api key and
produces an ApiKey-mode account. -/
theorem c6_import_neither_and_both (fresh_id account_name : String)
    (lr lr2 : Option Timestamp) (k : String) (t : TokenData) :
    (import_auth_core fresh_id account_name
        { openai_api_key := none, tokens := none, last_refresh := lr }
      = Except.error "auth.json contains neither API key nor tokens") ∧
    ((import_auth_core fresh_id account_name
        { openai_api_key := some k, tokens := some t, last_refresh := lr2 }).map
      StoredAccount.auth_data = Except.ok (AuthData.ApiKey k)) := by
  constructor
  · rfl
  · simp [import_auth_core, StoredAccount.new_api_key, Except.map]

/-! ## Claims about the JWT claim extraction -/

/-- Claim C7: for every input string, parse_id_token_claims returns the
pair (none, none), raising no error, when the string does not split
into exactly three period-separated parts, when the middle part is not
valid URL-safe no-padding base64, or when the decoded bytes are not
valid JSON. -/
theorem c7_claims_degrade_to_none (s : String)
    (h : (splitOnChar '.' s.data).length ≠ 3 ∨
      ∃ p, (splitOnChar '.' s.data)[1]? = some p ∧
        (base64UrlNoPadDecode p = none ∨
         ∃ bs, base64UrlNoPadDecode p = some bs ∧ jsonParseBytes bs = none)) :
    parse_id_token_claims s = (none, none) := by
  unfold parse_id_token_claims
  rcases e : splitOnChar '.' s.data with _ | ⟨a, _ | ⟨b, _ | ⟨c, _ | ⟨d, t⟩⟩⟩⟩
  · rfl
  · rfl
  · rfl
  · rcases h with h3 | ⟨p, hp, hrest⟩
    · exact absurd (by rw [e]; rfl) h3
    · rw [e] at hp
      have hpb : p = b := by
        simp at hp
        exact hp.symm
      subst hpb
      rcases hrest with hdec | ⟨bs, hbs, hjson⟩
      · simp [hdec]
      · simp [hbs, hjson]
  · rfl

/-- Claim C8: on a three-part token whose middle segment is the URL-safe
no-padding base64 encoding of the vendor claims object with email
u at x.com and chatgpt_plan_type pro, parse_id_token_claims returns
both the email (from the top-level email field) and the plan label
(from the chatgpt_plan_type field nested under the vendor-namespaced
claims object). -/
theorem c8_claims_concrete_extraction :
    parse_id_token_claims
      "h.eyJlbWFpbCI6InVAeC5jb20iLCJodHRwczovL2FwaS5vcGVuYWkuY29tL2F1dGgiOnsiY2hhdGdwdF9wbGFuX3R5cGUiOiJwcm8ifX0.s"
      = (some "u@x.com", some "pro") := by
  decide

/-! ## Claims about the usage normalization arithmetic -/

/-- Ceiling division by 60 on the naturals agrees with the rational
ceiling. -/
theorem natCeilDivSixty (s : Nat) :
    (((s + 59) / 60 : ℕ) : ℤ) = ⌈(s : ℚ) / 60⌉ := by
  have h1 : (s : ℤ) ≤ (((s + 59) / 60 : ℕ) : ℤ) * 60 := by omega
  have h2 : (((s + 59) / 60 : ℕ) : ℤ) * 60 - 60 < (s : ℤ) := by omega
  rw [eq_comm, Int.ceil_eq_iff]
  constructor
  · rw [lt_div_iff₀ (by norm_num : (0 : ℚ) < 60)]
    have q2 : (((((s + 59) / 60 : ℕ) : ℤ)) : ℚ) * 60 - 60 < (s : ℚ) := by
      exact_mod_cast h2
    linarith
  · rw [div_le_iff₀ (by norm_num : (0 : ℚ) < 60)]
    exact_mod_cast h1

/-- Claim C4: for every nonnegative window length s in seconds reported
by the remote payload, the window-minutes field of the normalized
UsageInfo equals the ceiling of s divided by 60, computed as
(s + 59) / 60 in integer division, identically for the primary and the
secondary window; in particular 0, 60 and 61 seconds give 0, 1 and 2
minutes. -/
theorem c4_window_minutes_is_ceiling (acct pt : String) (pw sw : RateLimitWindow)
    (cr : Option CreditStatusDetails) (sp ss : Nat)
    (hp : pw.limit_window_seconds = some sp) (hs : sw.limit_window_seconds = some ss) :
    ((convert_payload_to_usage_info acct
        ⟨pt, some ⟨some pw, some sw⟩, cr⟩).primary_window_minutes
      = some ((sp + 59) / 60)) ∧
    ((convert_payload_to_usage_info acct
        ⟨pt, some ⟨some pw, some sw⟩, cr⟩).secondary_window_minutes
      = some ((ss + 59) / 60)) ∧
    ((((sp + 59) / 60 : ℕ) : ℤ) = ⌈(sp : ℚ) / 60⌉) ∧
    ((((ss + 59) / 60 : ℕ) : ℤ) = ⌈(ss : ℚ) / 60⌉) ∧
    (((0 + 59) / 60 : ℕ) = 0 ∧ ((60 + 59) / 60 : ℕ) = 1 ∧ ((61 + 59) / 60 : ℕ) = 2) := by
  refine ⟨?_, ?_, natCeilDivSixty sp, natCeilDivSixty ss, by norm_num, by norm_num, by norm_num⟩ <;>
    simp [convert_payload_to_usage_info, extract_rate_limits, hp, hs]

/-- Witness for claim C4 at the windows of 61 and 60 seconds. -/
theorem c4_window_minutes_is_ceiling_witness :
    ((convert_payload_to_usage_info "a"
        ⟨"pro", some ⟨some ⟨"0", some 61, none⟩, some ⟨"0", some 60, none⟩⟩,
          none⟩).primary_window_minutes = some 2) ∧
    ((convert_payload_to_usage_info "a"
        ⟨"pro", some ⟨some ⟨"0", some 61, none⟩, some ⟨"0", some 60, none⟩⟩,
          none⟩).secondary_window_minutes = some 1) := by
  have h := c4_window_minutes_is_ceiling "a" "pro" ⟨"0", some 61, none⟩
    ⟨"0", some 60, none⟩ none 61 60 rfl rfl
  exact ⟨by simpa using h.1, by simpa using h.2.1⟩

/-- Witness for claim C7 on the token a.b.c, whose middle part is not
valid base64 because its length is 1 modulo 4. -/
theorem c7_claims_degrade_to_none_witness :
    base64UrlNoPadDecode ("a.b.c".data.drop 2 |>.take 1) = none ∧
    parse_id_token_claims "a.b.c" = (none, none) := by
  refine ⟨by decide, c7_claims_degrade_to_none "a.b.c" (Or.inr ⟨['b'], by decide, Or.inl (by decide)⟩)⟩

/-! ## Claims about the usage fetcher -/

/-- Sample stored account in API-key mode. -/
def sampleApiAccount : StoredAccount :=
  { id := "id-api", name := "K", email := none, plan_type := none,
    auth_data := AuthData.ApiKey "sk-test" }

/-- Sample stored account in ChatGPT mode. -/
def sampleChatAccount : StoredAccount :=
  { id := "id-chat", name := "C", email := none, plan_type := none,
    auth_data := AuthData.ChatGPT "idt" "tok" "rft" none }

/-- Network environment that fails every send. -/
def netAlwaysFail : Net := fun _ => NetOutcome.sendFailure

/-- Network environment answering every request with the given status
and body text. -/
def netConst (status : Nat) (body : String) : Net :=
  fun _ => NetOutcome.response status (BodyResult.ok body)

/-- When the bearer string is a valid header value, header construction
succeeds with exactly the sent headers. -/
theorem buildUsageHeaders_ok (access_token : String) (chatgpt_account_id : Option String)
    (h : isValidHeaderValue ("Bearer " ++ access_token) = true) :
    buildUsageHeaders access_token chatgpt_account_id
      = Except.ok (sentHeaders access_token chatgpt_account_id) := by
  simp [buildUsageHeaders, h, sentHeaders]

/-- Claim C9 counterexample: on an API-key account the error field of the
returned record is the capitalized string of the source, not the
lowercase string the claim quotes. -/
theorem c9_counterexample :
    ((get_account_usage netAlwaysFail sampleApiAccount).toOption.map UsageInfo.error
      = some (some "Usage info not available for API key accounts")) ∧
    ((get_account_usage netAlwaysFail sampleApiAccount).toOption.map UsageInfo.error
      ≠ some (some "usage info not available for API key accounts")) := by
  decide

/-- Claim C9 as amended: for every API-key account, get_account_usage
returns, identically for every network environment (no network call is
made), the record with plan_type api_key, the error string
"Usage info not available for API key accounts" (capital U, a non-empty
error), and every other optional usage field absent. -/
theorem c9_api_key_short_circuit (net net2 : Net) (a : StoredAccount) (k : String)
    (h : a.auth_data = AuthData.ApiKey k) :
    (get_account_usage net a = Except.ok
      { account_id := a.id, plan_type := some "api_key",
        primary_used_percent := none, primary_window_minutes := none,
        primary_resets_at := none, secondary_used_percent := none,
        secondary_window_minutes := none, secondary_resets_at := none,
        has_credits := none, unlimited_credits := none, credits_balance := none,
        error := some "Usage info not available for API key accounts" }) ∧
    get_account_usage net a = get_account_usage net2 a := by
  constructor <;> simp [get_account_usage, h]

/-- Witness for the amended claim C9 on the sample API-key account and
two distinct network environments. -/
theorem c9_api_key_short_circuit_witness :
    (get_account_usage netAlwaysFail sampleApiAccount = Except.ok
      { account_id := "id-api", plan_type := some "api_key",
        primary_used_percent := none, primary_window_minutes := none,
        primary_resets_at := none, secondary_used_percent := none,
        secondary_window_minutes := none, secondary_resets_at := none,
        has_credits := none, unlimited_credits := none, credits_balance := none,
        error := some "Usage info not available for API key accounts" }) ∧
    get_account_usage netAlwaysFail sampleApiAccount
      = get_account_usage (netConst 500 "") sampleApiAccount := by
  have h := c9_api_key_short_circuit netAlwaysFail (netConst 500 "")
    sampleApiAccount "sk-test" rfl
  exact h

/-- Claim C10: for a ChatGPT account whose optional account id contains
a character invalid in an HTTP header value, the fetch silently omits
the chatgpt-account-id header, sends the request with the User-Agent
and Authorization headers only, and behaves exactly as it does with no
account id at all rather than failing or producing an error record
because of the header. -/
theorem c10_invalid_account_id_header_skipped (net : Net)
    (account_id account_name access_token acc_id : String)
    (hbad : isValidHeaderValue acc_id = false)
    (htok : isValidHeaderValue ("Bearer " ++ access_token) = true) :
    (buildUsageHeaders access_token (some acc_id)
      = Except.ok [("user-agent", "codex-cli/1.0.0"),
          ("authorization", "Bearer " ++ access_token)]) ∧
    get_usage_with_chatgpt_token net account_id account_name access_token (some acc_id)
      = get_usage_with_chatgpt_token net account_id account_name access_token none := by
  constructor
  · simp [buildUsageHeaders, htok, hbad]
  · unfold get_usage_with_chatgpt_token
    rw [buildUsageHeaders_ok access_token (some acc_id) htok,
      buildUsageHeaders_ok access_token none htok]
    have hreq : whamRequest access_token (some acc_id) = whamRequest access_token none := by
      simp [whamRequest, sentHeaders, hbad]
    rw [hreq]

/-- Witness for claim C10: an account id containing a line feed is
skipped and the fetch behaves as with no account id. -/
theorem c10_invalid_account_id_header_skipped_witness :
    (buildUsageHeaders "tok" (some "x\ny")
      = Except.ok [("user-agent", "codex-cli/1.0.0"),
          ("authorization", "Bearer " ++ "tok")]) ∧
    get_usage_with_chatgpt_token netAlwaysFail "id-chat" "C" "tok" (some "x\ny")
      = get_usage_with_chatgpt_token netAlwaysFail "id-chat" "C" "tok" none :=
  c10_invalid_account_id_header_skipped netAlwaysFail "id-chat" "C" "tok" "x\ny"
    (by decide) (by decide)

/-- Claim C2 counterexample: a fetch whose remote answers with success
status but an unparseable body makes get_account_usage return a call
failure (an error of the Result), not a record carrying the error in
its error field. -/
theorem c2_counterexample :
    get_account_usage (netConst 200 "notjson") sampleChatAccount
      = Except.error "Failed to parse usage response" := by
  rfl

/-- Claim C2 as amended: get_account_usage captures only a non-success
HTTP status into the error field of a returned record; a send failure,
a body-read failure on a success status, and a parse failure of the
body are returned as call failures (errors of the Result), which
refresh_all_usage later converts into per-account error records. -/
theorem c2_fetch_error_paths (net : Net) (a : StoredAccount)
    (idt atk rtk : String) (aid : Option String)
    (hauth : a.auth_data = AuthData.ChatGPT idt atk rtk aid)
    (htok : isValidHeaderValue ("Bearer " ++ atk) = true) :
    (∀ st b, net (whamRequest atk aid) = NetOutcome.response st b →
        statusIsSuccess st = false →
        get_account_usage net a
          = Except.ok (UsageInfo.mkError a.id ("API error: " ++ toString st))) ∧
    (net (whamRequest atk aid) = NetOutcome.sendFailure →
        get_account_usage net a = Except.error "Failed to send usage request") ∧
    (∀ st, net (whamRequest atk aid) = NetOutcome.response st BodyResult.readError →
        statusIsSuccess st = true →
        get_account_usage net a = Except.error "Failed to read response body") ∧
    (∀ st bt, net (whamRequest atk aid) = NetOutcome.response st (BodyResult.ok bt) →
        statusIsSuccess st = true → parseRateLimitStatusPayload bt = none →
        get_account_usage net a = Except.error "Failed to parse usage response") := by
  have hout : get_account_usage net a
      = get_usage_with_chatgpt_token net a.id a.name atk aid := by
    simp [get_account_usage, hauth]
  refine ⟨?_, ?_, ?_, ?_⟩
  · intro st b hnet hst
    rw [hout]
    unfold get_usage_with_chatgpt_token
    rw [buildUsageHeaders_ok atk aid htok, hnet]
    simp [hst]
  · intro hnet
    rw [hout]
    unfold get_usage_with_chatgpt_token
    rw [buildUsageHeaders_ok atk aid htok, hnet]
  · intro st hnet hst
    rw [hout]
    unfold get_usage_with_chatgpt_token
    rw [buildUsageHeaders_ok atk aid htok, hnet]
    simp [hst]
  · intro st bt hnet hst hparse
    rw [hout]
    unfold get_usage_with_chatgpt_token
    rw [buildUsageHeaders_ok atk aid htok, hnet]
    simp [hst, hparse]

/-- Witness for the amended claim C2: a 429 response is captured as an
error record of the returned Ok value. -/
theorem c2_fetch_error_paths_witness :
    get_account_usage (netConst 429 "limited") sampleChatAccount
      = Except.ok (UsageInfo.mkError "id-chat" ("API error: " ++ toString 429)) := by
  have h := c2_fetch_error_paths (netConst 429 "limited") sampleChatAccount
    "idt" "tok" "rft" none rfl (by decide)
  exact h.1 429 (BodyResult.ok "limited") rfl (by decide)

/-- The per-account handler of refresh_all_usage: the fetched record, or
an error record converted from a failed fetch. -/
def fetchRecord (net : Net) (account : StoredAccount) : UsageInfo :=
  match get_account_usage net account with
  | Except.ok info => info
  | Except.error e => UsageInfo.mkError account.id e

/-- Every record an Ok fetch returns carries the id of the fetched
account. -/
theorem get_account_usage_ok_account_id (net : Net) (a : StoredAccount) (u : UsageInfo)
    (h : get_account_usage net a = Except.ok u) : u.account_id = a.id := by
  cases had : a.auth_data with
  | ApiKey k =>
    simp [get_account_usage, had] at h
    simp [← h]
  | ChatGPT idt atk rtk aid =>
    simp only [get_account_usage, had] at h
    unfold get_usage_with_chatgpt_token at h
    cases hb : buildUsageHeaders atk aid with
    | error e => rw [hb] at h; exact absurd h (by simp)
    | ok hs =>
      rw [hb] at h
      cases hnet : net (whamRequest atk aid) with
      | sendFailure => rw [hnet] at h; simp at h
      | response st body =>
        rw [hnet] at h
        cases hst : statusIsSuccess st with
        | false =>
          simp [hst] at h
          subst h
          rfl
        | true =>
          cases body with
          | readError => simp [hst] at h
          | ok bt =>
            cases hp : parseRateLimitStatusPayload bt with
            | none => simp [hst, hp] at h
            | some payload =>
              simp [hst, hp] at h
              subst h
              rfl

/-- The record refresh_all_usage produces for an account carries that
account's id, whether the fetch succeeded or failed. -/
theorem fetchRecord_account_id (net : Net) (a : StoredAccount) :
    (fetchRecord net a).account_id = a.id := by
  unfold fetchRecord
  cases h : get_account_usage net a with
  | ok u => exact get_account_usage_ok_account_id net a u h
  | error e => rfl

/-- Claim C3: refresh_all_usage returns a plain list (never a failure),
with exactly one UsageInfo per account: the list has the length of the
input, the record at every input position carries the id of the account
at that position, and the record at position i is exactly the handled
fetch of account i, so an individual transport or parse error is
converted into that account's error record and leaves every other
position unaffected. -/
theorem c3_refresh_all_order_and_isolation (net : Net) (accounts : List StoredAccount) :
    ((refresh_all_usage net accounts).length = accounts.length) ∧
    ((refresh_all_usage net accounts).map (fun u => u.account_id)
      = accounts.map (fun a => a.id)) ∧
    (∀ i : Nat,
      (refresh_all_usage net accounts)[i]? = (accounts[i]?).map (fetchRecord net)) := by
  have heq : refresh_all_usage net accounts = accounts.map (fetchRecord net) := rfl
  refine ⟨by simp [heq], ?_, ?_⟩
  · rw [heq, List.map_map]
    exact List.map_congr_left (fun a _ => fetchRecord_account_id net a)
  · intro i
    rw [heq, List.getElem?_map]
